import Mathlib

/-!
Verification of the error-aggregation module (`src/err.rs`) of the
`libblkid-rs` binding. The module defines the `BlkidErr` tagged union with
twelve variants, six `From` conversions generated by the `from_err!` macro,
a `Display` implementation, and an empty `Error` impl. Each external cause
type (`std::ffi::NulError`, `std::io::Error`, ...) is opaque to this module:
the only thing the module uses about it is its `Display` rendering, so each
is modelled as a record carrying that rendered text.
-/

namespace LibBlkid

/-- Model of `std::ffi::NulError`: an opaque external cause, carrying the text
its own `Display` implementation would render. -/
structure NulError where
  msg : String
deriving DecidableEq

/-- Model of `std::ffi::FromBytesWithNulError`. -/
structure FromBytesWithNulError where
  msg : String
deriving DecidableEq

/-- Model of `std::ffi::IntoStringError`. -/
structure IntoStringError where
  msg : String
deriving DecidableEq

/-- Model of `std::str::Utf8Error`. -/
structure Utf8Error where
  msg : String
deriving DecidableEq

/-- Model of `std::string::FromUtf8Error`. -/
structure FromUtf8Error where
  msg : String
deriving DecidableEq

/-- Model of `std::num::TryFromIntError`. -/
structure TryFromIntError where
  msg : String
deriving DecidableEq

/-- Model of `std::io::Error`. -/
structure IOError where
  msg : String
deriving DecidableEq

/-- Model of `uuid::Error`. -/
structure UuidError where
  msg : String
deriving DecidableEq

/-- The `BlkidErr` enum of `src/err.rs` lines 36–61: twelve variants, eight of
them wrapping an external cause, one carrying a free-form message, three
payload-free. The Rust variant `IO` is spelled `IOErr` here. -/
inductive BlkidErr where
  | Null (e : NulError)
  | BytesWithNull (e : FromBytesWithNulError)
  | IntoString (e : IntoStringError)
  | PositiveReturnCode
  | InvalidConv
  | UTF8 (e : Utf8Error)
  | FromUTF8 (e : FromUtf8Error)
  | FromInt (e : TryFromIntError)
  | IOErr (e : IOError)
  | Uuid (e : UuidError)
  | Other (s : String)
  | LibErr
deriving DecidableEq

/-- The `Display` implementation of `src/err.rs` lines 63–82, arm by arm.
A Rust `write!(f, ...)` appends the formatted text to the formatter's buffer,
so `fmt` takes the buffer and returns it with the arm's text appended;
`{e}` interpolates the wrapped cause's own rendering. -/
def BlkidErr.fmt : BlkidErr → String → String
  | .Null e, b => b ++ ("Null error during string conversion: " ++ e.msg)
  | .BytesWithNull e, b => b ++ ("Null error when converting from slice: " ++ e.msg)
  | .IntoString e, b => b ++ ("Could not convert C string to string: " ++ e.msg)
  | .PositiveReturnCode, b => b ++ "Positive return code found when <= 0 was expected"
  | .InvalidConv, b => b ++ "The requested conversion was unsuccessful"
  | .UTF8 e, b => b ++ ("UTF8 error: " ++ e.msg)
  | .FromUTF8 e, b => b ++ ("UTF8 conversion error: " ++ e.msg)
  | .FromInt e, b => b ++ ("Int conversion error: " ++ e.msg)
  | .IOErr e, b => b ++ ("An IO error occurred: " ++ e.msg)
  | .Uuid e, b => b ++ ("A UUID error occurred: " ++ e.msg)
  | .Other s, b => b ++ s
  | .LibErr, b => b ++ "libblkid returned an error code indicating an operation could not be completed successfully"

/-- The text `Display` produces on an empty formatter: the rendering of the
error, as `format!("{err}")` would observe it. -/
def BlkidErr.display (e : BlkidErr) : String := e.fmt ""

/-- The `From<std::ffi::NulError>` impl generated by the `from_err!` macro
(`src/err.rs` lines 10–29): `BlkidErr::Null(v)`. -/
def fromNulError (v : NulError) : BlkidErr := BlkidErr.Null v

/-- The generated `From<std::ffi::FromBytesWithNulError>` impl. -/
def fromBytesWithNulErr (v : FromBytesWithNulError) : BlkidErr := BlkidErr.BytesWithNull v

/-- The generated `From<std::io::Error>` impl. -/
def fromIOError (v : IOError) : BlkidErr := BlkidErr.IOErr v

/-- The generated `From<std::str::Utf8Error>` impl. -/
def fromUtf8Error (v : Utf8Error) : BlkidErr := BlkidErr.UTF8 v

/-- The generated `From<std::string::FromUtf8Error>` impl. -/
def fromFromUtf8Error (v : FromUtf8Error) : BlkidErr := BlkidErr.FromUTF8 v

/-- The generated `From<std::num::TryFromIntError>` impl. -/
def fromTryFromIntError (v : TryFromIntError) : BlkidErr := BlkidErr.FromInt v

/-- The discriminant of `BlkidErr`: one tag per variant, in source order. -/
inductive Tag where
  | Null
  | BytesWithNull
  | IntoString
  | PositiveReturnCode
  | InvalidConv
  | UTF8
  | FromUTF8
  | FromInt
  | IOErr
  | Uuid
  | Other
  | LibErr
deriving DecidableEq

/-- The discriminant of an error value. -/
def BlkidErr.tag : BlkidErr → Tag
  | .Null _ => .Null
  | .BytesWithNull _ => .BytesWithNull
  | .IntoString _ => .IntoString
  | .PositiveReturnCode => .PositiveReturnCode
  | .InvalidConv => .InvalidConv
  | .UTF8 _ => .UTF8
  | .FromUTF8 _ => .FromUTF8
  | .FromInt _ => .FromInt
  | .IOErr _ => .IOErr
  | .Uuid _ => .Uuid
  | .Other _ => .Other
  | .LibErr => .LibErr

/-- All twelve variant tags, in source order. -/
def allTags : List Tag :=
  [.Null, .BytesWithNull, .IntoString, .PositiveReturnCode, .InvalidConv,
   .UTF8, .FromUTF8, .FromInt, .IOErr, .Uuid, .Other, .LibErr]

/-- The underlying cause types named in `src/err.rs`: the six listed in the
`from_err!` invocation plus the two (`IntoStringError`, `uuid::Error`) that
appear only as variant payloads. -/
inductive CauseTy where
  | nulError
  | fromBytesWithNulError
  | ioError
  | utf8Error
  | fromUtf8Error
  | tryFromIntError
  | intoStringError
  | uuidError
deriving DecidableEq

/-- The `from_err!` invocation at `src/err.rs` lines 22–29, as the table of
`From` impls it generates: each listed cause type paired with the variant
its impl constructs. No other `From<cause>` impl exists in the module. -/
def fromErrImpls : List (CauseTy × Tag) :=
  [(.nulError, .Null),
   (.fromBytesWithNulError, .BytesWithNull),
   (.ioError, .IOErr),
   (.utf8Error, .UTF8),
   (.fromUtf8Error, .FromUTF8),
   (.tryFromIntError, .FromInt)]

/-- The `impl Error for BlkidErr {}` at `src/err.rs` line 84: the impl body is
empty, so the trait's provided default `source`, which returns `None` for
every value, is in force. -/
def BlkidErr.source (_e : BlkidErr) : Option BlkidErr := none

/-- Rust pattern match extracting the `Null` payload (the inner cause a caller
can reach through the variant's payload). -/
def BlkidErr.nulPayload : BlkidErr → Option NulError
  | .Null e => some e
  | _ => none

/-- Rust pattern match extracting the `BytesWithNull` payload. -/
def BlkidErr.bytesWithNulPayload : BlkidErr → Option FromBytesWithNulError
  | .BytesWithNull e => some e
  | _ => none

/-- Rust pattern match extracting the `IntoString` payload. -/
def BlkidErr.intoStringPayload : BlkidErr → Option IntoStringError
  | .IntoString e => some e
  | _ => none

/-- Rust pattern match extracting the `UTF8` payload. -/
def BlkidErr.utf8Payload : BlkidErr → Option Utf8Error
  | .UTF8 e => some e
  | _ => none

/-- Rust pattern match extracting the `FromUTF8` payload. -/
def BlkidErr.fromUtf8Payload : BlkidErr → Option FromUtf8Error
  | .FromUTF8 e => some e
  | _ => none

/-- Rust pattern match extracting the `FromInt` payload. -/
def BlkidErr.fromIntPayload : BlkidErr → Option TryFromIntError
  | .FromInt e => some e
  | _ => none

/-- Rust pattern match extracting the `IO` payload. -/
def BlkidErr.ioPayload : BlkidErr → Option IOError
  | .IOErr e => some e
  | _ => none

/-- Rust pattern match extracting the `Uuid` payload. -/
def BlkidErr.uuidPayload : BlkidErr → Option UuidError
  | .Uuid e => some e
  | _ => none

/-- The text a variant's payload contributes to the rendering: the wrapped
cause's rendered text for the eight wrapping variants, the stored message for
`Other`, and nothing for the three payload-free variants. -/
def BlkidErr.payloadText : BlkidErr → String
  | .Null e => e.msg
  | .BytesWithNull e => e.msg
  | .IntoString e => e.msg
  | .PositiveReturnCode => ""
  | .InvalidConv => ""
  | .UTF8 e => e.msg
  | .FromUTF8 e => e.msg
  | .FromInt e => e.msg
  | .IOErr e => e.msg
  | .Uuid e => e.msg
  | .Other s => s
  | .LibErr => ""

/-- The fixed text each variant contributes to its rendering: the category
phrase of the eight wrapping variants, the full fixed sentence of the three
payload-free variants, nothing for `Other`. -/
def fixedText : Tag → String
  | .Null => "Null error during string conversion: "
  | .BytesWithNull => "Null error when converting from slice: "
  | .IntoString => "Could not convert C string to string: "
  | .PositiveReturnCode => "Positive return code found when <= 0 was expected"
  | .InvalidConv => "The requested conversion was unsuccessful"
  | .UTF8 => "UTF8 error: "
  | .FromUTF8 => "UTF8 conversion error: "
  | .FromInt => "Int conversion error: "
  | .IOErr => "An IO error occurred: "
  | .Uuid => "A UUID error occurred: "
  | .Other => ""
  | .LibErr => "libblkid returned an error code indicating an operation could not be completed successfully"

/-- Every rendering is the variant's fixed text followed by its payload text. -/
lemma display_eq_fixed_append (e : BlkidErr) :
    e.display = fixedText e.tag ++ e.payloadText := by
  cases e <;> simp [BlkidErr.display, BlkidErr.fmt, BlkidErr.payloadText,
    BlkidErr.tag, fixedText]

/-- Character membership distributes over string concatenation. -/
lemma mem_data_append {c : Char} {a b : String} :
    c ∈ (a ++ b).data ↔ c ∈ a.data ∨ c ∈ b.data := by
  show c ∈ a.data ++ b.data ↔ _
  exact List.mem_append

/-- C1: `PositiveReturnCode` and `LibErr` are distinct variants, and each
renders a fixed, cause-free sentence; the two sentences differ, so the two
failure classes stay distinguishable both by variant and by rendered text. -/
theorem c1_positive_code_vs_liberr_distinct :
    BlkidErr.display BlkidErr.PositiveReturnCode
        = "Positive return code found when <= 0 was expected"
    ∧ BlkidErr.display BlkidErr.LibErr
        = "libblkid returned an error code indicating an operation could not be completed successfully"
    ∧ BlkidErr.display BlkidErr.PositiveReturnCode ≠ BlkidErr.display BlkidErr.LibErr
    ∧ BlkidErr.PositiveReturnCode ≠ BlkidErr.LibErr := by
  refine ⟨rfl, rfl, ?_, ?_⟩ <;> decide

/-- C2: each of the six `from_err!` conversions wraps its cause value
unmodified into exactly the matching variant, and each conversion is
injective, so no information is discarded. -/
theorem c2_conversions_wrap_losslessly :
    (∀ e, fromNulError e = BlkidErr.Null e)
    ∧ (∀ e, fromBytesWithNulErr e = BlkidErr.BytesWithNull e)
    ∧ (∀ e, fromIOError e = BlkidErr.IOErr e)
    ∧ (∀ e, fromUtf8Error e = BlkidErr.UTF8 e)
    ∧ (∀ e, fromFromUtf8Error e = BlkidErr.FromUTF8 e)
    ∧ (∀ e, fromTryFromIntError e = BlkidErr.FromInt e)
    ∧ (∀ e₁ e₂, fromNulError e₁ = fromNulError e₂ → e₁ = e₂)
    ∧ (∀ e₁ e₂, fromBytesWithNulErr e₁ = fromBytesWithNulErr e₂ → e₁ = e₂)
    ∧ (∀ e₁ e₂, fromIOError e₁ = fromIOError e₂ → e₁ = e₂)
    ∧ (∀ e₁ e₂, fromUtf8Error e₁ = fromUtf8Error e₂ → e₁ = e₂)
    ∧ (∀ e₁ e₂, fromFromUtf8Error e₁ = fromFromUtf8Error e₂ → e₁ = e₂)
    ∧ (∀ e₁ e₂, fromTryFromIntError e₁ = fromTryFromIntError e₂ → e₁ = e₂) := by
  refine ⟨fun _ => rfl, fun _ => rfl, fun _ => rfl, fun _ => rfl, fun _ => rfl,
    fun _ => rfl, ?_, ?_, ?_, ?_, ?_, ?_⟩ <;>
    exact fun e₁ e₂ h => by injection h

/-- Witness for C2 at a concrete cause value. -/
theorem c2_conversions_wrap_losslessly_witness :
    fromNulError ⟨"x"⟩ = BlkidErr.Null ⟨"x"⟩
    ∧ fromNulError ⟨"x"⟩ = fromNulError ⟨"x"⟩
    ∧ (⟨"x"⟩ : NulError) = ⟨"x"⟩ :=
  ⟨c2_conversions_wrap_losslessly.1 ⟨"x"⟩, rfl,
    c2_conversions_wrap_losslessly.2.2.2.2.2.2.1 ⟨"x"⟩ ⟨"x"⟩ rfl⟩

/-- C3: converting each recognized cause and rendering yields exactly the
variant's fixed category phrase followed by the cause's own rendered text, so
the rendering contains both verbatim; in particular `FromInt` renders as
the phrase Int conversion error, a colon and a space, then the cause text. -/
theorem c3_converted_rendering_keeps_cause_text :
    (∀ e : NulError,
      (fromNulError e).display = "Null error during string conversion: " ++ e.msg)
    ∧ (∀ e : FromBytesWithNulError,
      (fromBytesWithNulErr e).display = "Null error when converting from slice: " ++ e.msg)
    ∧ (∀ e : IOError,
      (fromIOError e).display = "An IO error occurred: " ++ e.msg)
    ∧ (∀ e : Utf8Error,
      (fromUtf8Error e).display = "UTF8 error: " ++ e.msg)
    ∧ (∀ e : FromUtf8Error,
      (fromFromUtf8Error e).display = "UTF8 conversion error: " ++ e.msg)
    ∧ (∀ e : TryFromIntError,
      (fromTryFromIntError e).display = "Int conversion error: " ++ e.msg) :=
  ⟨fun _ => rfl, fun _ => rfl, fun _ => rfl, fun _ => rfl, fun _ => rfl, fun _ => rfl⟩

/-- C4: `Other(s)` renders exactly its stored message `s`, with no added
text. -/
theorem c4_other_renders_verbatim :
    ∀ s : String, (BlkidErr.Other s).display = s :=
  fun _ => rfl

/-- C5: the error type is a closed tagged union of exactly twelve variants:
every error value carries one of the twelve tags (a match over them is
exhaustive, no wildcard needed), the tags are pairwise distinct, and every
variant is independently constructible. -/
theorem c5_twelve_variant_closed_union :
    allTags.length = 12
    ∧ allTags.Nodup
    ∧ (∀ e : BlkidErr, e.tag ∈ allTags)
    ∧ (∀ t : Tag, ∃ e : BlkidErr, e.tag = t) := by
  refine ⟨rfl, by decide, ?_, ?_⟩
  · intro e
    cases e <;> simp [BlkidErr.tag, allTags]
  · intro t
    cases t
    · exact ⟨.Null ⟨""⟩, rfl⟩
    · exact ⟨.BytesWithNull ⟨""⟩, rfl⟩
    · exact ⟨.IntoString ⟨""⟩, rfl⟩
    · exact ⟨.PositiveReturnCode, rfl⟩
    · exact ⟨.InvalidConv, rfl⟩
    · exact ⟨.UTF8 ⟨""⟩, rfl⟩
    · exact ⟨.FromUTF8 ⟨""⟩, rfl⟩
    · exact ⟨.FromInt ⟨""⟩, rfl⟩
    · exact ⟨.IOErr ⟨""⟩, rfl⟩
    · exact ⟨.Uuid ⟨""⟩, rfl⟩
    · exact ⟨.Other "", rfl⟩
    · exact ⟨.LibErr, rfl⟩

/-- C6: rendering is deterministic and effect-free in the embedding: the text
`fmt` appends to the formatter depends only on the error value (so rendering
the same value twice, on any buffers, appends identical text), and `fmt`
only appends — it never reads or alters what the buffer already holds. -/
theorem c6_rendering_pure_deterministic :
    ∀ (e : BlkidErr) (b : String), BlkidErr.fmt e b = b ++ BlkidErr.display e := by
  intro e b
  cases e <;> rfl

/-- C7: the empty `Error` impl keeps the default `source`: every value's
chained cause is `None` (the chain terminates here), while each wrapping
variant still exposes its inner cause through its payload. -/
theorem c7_no_source_chain_payload_exposed :
    (∀ e : BlkidErr, e.source = none)
    ∧ (∀ p, (BlkidErr.Null p).nulPayload = some p)
    ∧ (∀ p, (BlkidErr.BytesWithNull p).bytesWithNulPayload = some p)
    ∧ (∀ p, (BlkidErr.IntoString p).intoStringPayload = some p)
    ∧ (∀ p, (BlkidErr.UTF8 p).utf8Payload = some p)
    ∧ (∀ p, (BlkidErr.FromUTF8 p).fromUtf8Payload = some p)
    ∧ (∀ p, (BlkidErr.FromInt p).fromIntPayload = some p)
    ∧ (∀ p, (BlkidErr.IOErr p).ioPayload = some p)
    ∧ (∀ p, (BlkidErr.Uuid p).uuidPayload = some p) :=
  ⟨fun _ => rfl, fun _ => rfl, fun _ => rfl, fun _ => rfl, fun _ => rfl,
    fun _ => rfl, fun _ => rfl, fun _ => rfl, fun _ => rfl⟩

/-- C8 as stated is false: `Other` renders its stored message verbatim, so a
message containing a line break renders to more than one line. -/
theorem c8_counterexample_multiline_other :
    ¬ ∀ e : BlkidErr, '\n' ∉ e.display.data := by
  intro h
  exact h (BlkidErr.Other "a\nb") (by decide)

/-- C8 amended: every variant's fixed text is a single line, so whenever the
payload text (the wrapped cause's rendering, or the stored message of
`Other`) contains no line break, the full rendering contains no line
break. -/
theorem c8_single_line_rendering (e : BlkidErr) (h : '\n' ∉ e.payloadText.data) :
    '\n' ∉ e.display.data := by
  rw [display_eq_fixed_append]
  intro hc
  rcases mem_data_append.1 hc with h1 | h2
  · revert h1
    cases e <;> simp only [BlkidErr.tag, fixedText] <;> decide
  · exact h h2

/-- Witness for C8 amended at a concrete single-line message. -/
theorem c8_single_line_rendering_witness :
    '\n' ∉ (BlkidErr.Other "ok").payloadText.data
    ∧ '\n' ∉ (BlkidErr.Other "ok").display.data :=
  ⟨by decide, c8_single_line_rendering (BlkidErr.Other "ok") (by decide)⟩

/-- C9: the `from_err!` invocation generates conversions for exactly six cause
types, in source order; neither the IntoString cause nor the Uuid cause is
among them, so those two variants are only built by naming them
explicitly. -/
theorem c9_no_implicit_intostring_uuid_conversion :
    CauseTy.intoStringError ∉ fromErrImpls.map Prod.fst
    ∧ CauseTy.uuidError ∉ fromErrImpls.map Prod.fst
    ∧ fromErrImpls.map Prod.fst
        = [.nulError, .fromBytesWithNulError, .ioError,
           .utf8Error, .fromUtf8Error, .tryFromIntError]
    ∧ fromErrImpls.map Prod.snd
        = [.Null, .BytesWithNull, .IOErr, .UTF8, .FromUTF8, .FromInt] := by
  refine ⟨?_, ?_, rfl, rfl⟩ <;> decide

/-- C10: rendering does not identify the variant: `Other` applied to
`LibErr`'s fixed sentence renders identically to `LibErr` although the two
values are different variants, so text alone cannot classify the failure. -/
theorem c10_rendering_not_injective :
    BlkidErr.display (BlkidErr.Other "libblkid returned an error code indicating an operation could not be completed successfully")
        = BlkidErr.display BlkidErr.LibErr
    ∧ BlkidErr.Other "libblkid returned an error code indicating an operation could not be completed successfully"
        ≠ BlkidErr.LibErr := by
  refine ⟨rfl, ?_⟩
  decide

end LibBlkid
